import Mathlib

/-!
Verification development for the delivery-route-optimizer repository
(gateway `backend/main.py`, agent `agent/main.py`, pipeline
`agent/crewai_agents.py`).  The Python code is shallowly embedded:
JSON values are an inductive type, `json.loads` is a fuel-bounded
recursive-descent parser (JSON numbers are modelled as integers and
`\uXXXX` string escapes are not modelled; no claim below depends on
either), the `re.search` brace-span extraction and Python `str.format`
are explicit functions, and each HTTP handler / normalizer is a total
function from its request plus an explicit upstream outcome to its
response.  Python exceptions are modelled with `Except` so that the
`try/except` routing of `backend/main.py` is reproduced exactly.
-/

/-- Opening curly brace character, kept as a named constant. -/
def lbrace : Char := Char.ofNat 123

/-- Closing curly brace character, kept as a named constant. -/
def rbrace : Char := Char.ofNat 125

/-- JSON values as produced by `json.loads` (numbers restricted to integers). -/
inductive Json where
  | null : Json
  | bool (b : Bool) : Json
  | num (n : Int) : Json
  | str (s : String) : Json
  | arr (elems : List Json) : Json
  | obj (fields : List (String × Json)) : Json
deriving Repr

/-- Structural decidable equality for `Json` (hand-rolled because of the
nested `List` occurrences). -/
def Json.beq : Json → Json → Bool
  | .null, .null => true
  | .bool a, .bool b => a == b
  | .num a, .num b => a == b
  | .str a, .str b => a == b
  | .arr a, .arr b => beqList a b
  | .obj a, .obj b => beqFields a b
  | _, _ => false
where
  beqList : List Json → List Json → Bool
    | [], [] => true
    | x :: xs, y :: ys => Json.beq x y && beqList xs ys
    | _, _ => false
  beqFields : List (String × Json) → List (String × Json) → Bool
    | [], [] => true
    | (k, x) :: xs, (l, y) :: ys => k == l && Json.beq x y && beqFields xs ys
    | _, _ => false

instance : BEq Json := ⟨Json.beq⟩

/-- Whitespace skipping as done by Python's JSON scanner. -/
def skipWs : List Char → List Char
  | [] => []
  | c :: cs => if c = ' ' ∨ c = '\n' ∨ c = '\t' ∨ c = '\r' then skipWs cs else c :: cs

/-- Parse the inside of a JSON string literal (opening quote already
consumed); returns the decoded characters and the remaining input. -/
def pStringChars : List Char → Option (List Char × List Char)
  | [] => none
  | c :: cs =>
    if c = '\"' then some ([], cs)
    else if c = '\\' then
      match cs with
      | [] => none
      | e :: cs2 =>
        let dec : Option Char :=
          if e = '\"' then some '\"'
          else if e = '\\' then some '\\'
          else if e = '/' then some '/'
          else if e = 'n' then some '\n'
          else if e = 't' then some '\t'
          else if e = 'r' then some '\r'
          else if e = 'b' then some (Char.ofNat 8)
          else if e = 'f' then some (Char.ofNat 12)
          else none
        match dec with
        | none => none
        | some d =>
          match pStringChars cs2 with
          | none => none
          | some (s, rest) => some (d :: s, rest)
    else
      match pStringChars cs with
      | none => none
      | some (s, rest) => some (c :: s, rest)

/-- Greedily take leading decimal digits. -/
def takeDigits : List Char → (List Char × List Char)
  | [] => ([], [])
  | c :: cs =>
    if c.isDigit then
      let (ds, rest) := takeDigits cs
      (c :: ds, rest)
    else ([], c :: cs)

/-- Numeric value of a digit string. -/
def digitsVal (ds : List Char) : Nat :=
  ds.foldl (fun a c => a * 10 + (c.toNat - 48)) 0

/-- Match a literal keyword (`true`, `false`, `null`) against the input. -/
def dropLit : List Char → List Char → Option (List Char)
  | [], s => some s
  | _ :: _, [] => none
  | c :: p, d :: s => if c = d then dropLit p s else none

/-- Parse a JSON integer starting at the given input (floats rejected:
a trailing `.`, `e` or `E` makes the whole parse fail, a modelling
restriction of `json.loads` to integral numbers). -/
def pNum : List Char → Option (Json × List Char) := fun cs =>
  let (neg, cs1) :=
    match cs with
    | c :: rest => if c = '-' then (true, rest) else (false, cs)
    | [] => (false, cs)
  let (ds, rest) := takeDigits cs1
  if ds = [] then none
  else
    match rest with
    | c :: _ => if c = '.' ∨ c = 'e' ∨ c = 'E' then none else
        some (.num (if neg then -(digitsVal ds : Int) else (digitsVal ds : Int)), rest)
    | [] => some (.num (if neg then -(digitsVal ds : Int) else (digitsVal ds : Int)), rest)

/-- Parser mode: a plain value, the members of an object being
accumulated, or the elements of an array being accumulated. -/
inductive PMode where
  | val : PMode
  | members (acc : List (String × Json)) : PMode
  | elems (acc : List Json) : PMode

/-- Fuel-bounded recursive-descent JSON parser, one step per fuel unit. -/
def pStep : Nat → PMode → List Char → Option (Json × List Char)
  | 0, _, _ => none
  | fuel + 1, .val, cs =>
    match skipWs cs with
    | [] => none
    | c :: rest =>
      if c = '\"' then
        match pStringChars rest with
        | some (s, r) => some (.str (String.mk s), r)
        | none => none
      else if c = lbrace then
        match skipWs rest with
        | d :: r3 => if d = rbrace then some (.obj [], r3) else pStep fuel (.members []) rest
        | [] => none
      else if c = '[' then
        match skipWs rest with
        | d :: r3 => if d = ']' then some (.arr [], r3) else pStep fuel (.elems []) rest
        | [] => none
      else if c = 't' then
        match dropLit ['r', 'u', 'e'] rest with
        | some r => some (.bool true, r)
        | none => none
      else if c = 'f' then
        match dropLit ['a', 'l', 's', 'e'] rest with
        | some r => some (.bool false, r)
        | none => none
      else if c = 'n' then
        match dropLit ['u', 'l', 'l'] rest with
        | some r => some (.null, r)
        | none => none
      else if c = '-' ∨ c.isDigit then pNum (c :: rest)
      else none
  | fuel + 1, .members acc, cs =>
    match skipWs cs with
    | c :: rest =>
      if c = '\"' then
        match pStringChars rest with
        | some (k, r1) =>
          (match skipWs r1 with
           | d :: r3 =>
             if d = ':' then
               match pStep fuel .val r3 with
               | some (v, r4) =>
                 (match skipWs r4 with
                  | e :: r6 =>
                    if e = ',' then pStep fuel (.members (acc ++ [(String.mk k, v)])) r6
                    else if e = rbrace then some (.obj (acc ++ [(String.mk k, v)]), r6)
                    else none
                  | [] => none)
               | none => none
             else none
           | [] => none)
        | none => none
      else none
    | [] => none
  | fuel + 1, .elems acc, cs =>
    match pStep fuel .val cs with
    | some (v, r1) =>
      (match skipWs r1 with
       | e :: r2 =>
         if e = ',' then pStep fuel (.elems (acc ++ [v])) r2
         else if e = ']' then some (.arr (acc ++ [v]), r2)
         else none
       | [] => none)
    | none => none

/-- Model of Python `json.loads`: the whole input must be a single JSON
value surrounded only by whitespace. -/
def jsonParse (s : String) : Option Json :=
  match pStep (2 * s.length + 4) .val s.data with
  | some (v, rest) => if skipWs rest = [] then some v else none
  | none => none

/-- Field lookup on a JSON object (`dict.get`); `none` on non-objects. -/
def lookupJ (j : Json) (k : String) : Option Json :=
  match j with
  | .obj fields => fields.lookup k
  | _ => none

/-- Model of `re.search` with the pattern "brace, any characters, brace"
under `re.DOTALL`: the greedy match runs from the first opening brace to
the last closing brace that follows it, or fails when no such pair
exists (`crewai_agents.py` line 230). -/
def extractSpan (s : String) : Option String :=
  let after := s.data.dropWhile (fun c => c ≠ lbrace)
  let kept := (after.reverse.dropWhile (fun c => c ≠ rbrace)).reverse
  if after = [] then none
  else if kept = [] then none
  else some (String.mk kept)

/-- Scan a format-placeholder name up to the closing brace; fails at end
of input or on a nested opening brace (Python raises there). -/
def scanName : List Char → Option (List Char × List Char)
  | [] => none
  | c :: cs =>
    if c = rbrace then some ([], cs)
    else if c = lbrace then none
    else
      match scanName cs with
      | none => none
      | some (nm, rest) => some (c :: nm, rest)

/-- Fuel-bounded core of the Python `str.format` model: substitute
`\x7bname\x7d` placeholders from the association list, failing (like
Python's `KeyError` / `ValueError`) on unknown names or stray braces. -/
def formatCore (vals : List (String × String)) : Nat → List Char → Option (List Char)
  | 0, _ => none
  | _ + 1, [] => some []
  | fuel + 1, c :: cs =>
    if c = lbrace then
      match scanName cs with
      | none => none
      | some (nm, rest) =>
        match vals.lookup (String.mk nm) with
        | none => none
        | some v =>
          match formatCore vals fuel rest with
          | none => none
          | some out => some (v.data ++ out)
    else if c = rbrace then none
    else
      match formatCore vals fuel cs with
      | none => none
      | some out => some (c :: out)

/-- Model of Python `str.format(**vals)` (doubled-brace escapes are not
modelled; no template in the source uses them). -/
def pyFormat (tpl : String) (vals : List (String × String)) : Option String :=
  (formatCore vals (tpl.length + 1) tpl.data).map String.mk

/-! ## Agent tier data model (`agent/main.py`, `agent/crewai_agents.py`) -/

/-- Address entry as read by the agent tier (`addr["address"]`,
`addr["priority"]`). -/
structure AAddr where
  address : String
  priority : Int
deriving Repr, DecidableEq

/-- Input dictionary of the agent endpoints.  A JSON `null` for an
optional key is modelled like an absent key (`data.get`), and the two
container options are modelled with the empty container standing for
the Python-falsy default. -/
structure AgentData where
  addresses : List AAddr
  weather_condition : Option String
  traffic_condition : Option String
  warehouse_delays : List (String × Int)
  special_requirements : List String
deriving Repr, DecidableEq

/-- Python whitespace for `str.strip()` (the characters that occur in
practice; exotic unicode space classes are not modelled). -/
def pyWs (c : Char) : Bool :=
  c = ' ' ∨ c = '\t' ∨ c = '\n' ∨ c = '\r' ∨ c = Char.ofNat 11 ∨ c = Char.ofNat 12

/-- Model of Python `str.strip()`: drop leading and trailing whitespace. -/
def pyStrip (s : String) : String :=
  String.mk (((s.data.dropWhile pyWs).reverse.dropWhile pyWs).reverse)

/-- Identity route: the input addresses' address strings in input
order (`[addr["address"] for addr in data.get("addresses", [])]`). -/
def identityRoute (addrs : List AAddr) : List String :=
  addrs.map (fun a => a.address)

/-- Outcome of the single Model Client call in direct mode: either the
stripped-off reply text becomes available, or the call raised. -/
inductive ModelOutcome where
  | reply (text : String) : ModelOutcome
  | failure (err : String) : ModelOutcome
deriving Repr, DecidableEq

namespace RouteOptimizerAgent

/-- Weather translation dictionary of `create_prompt` with its
pass-through default (`weather_desc.get(weather, weather)`). -/
def weatherPhrase (w : String) : String :=
  if w = "sunny" then "солнечная погода"
  else if w = "rain" then "дождь"
  else if w = "snow" then "снег"
  else if w = "fog" then "туман"
  else w

/-- Traffic translation dictionary of `create_prompt` with its
pass-through default. -/
def trafficPhrase (t : String) : String :=
  if t = "light" then "легкие пробки"
  else if t = "moderate" then "умеренные пробки"
  else if t = "heavy" then "сильные пробки"
  else t

/-- Numbered address lines of `create_prompt` (`enumerate(addresses, 1)`). -/
def addressLines : Nat → List AAddr → String
  | _, [] => ""
  | i, a :: rest =>
    toString i ++ ". " ++ a.address ++ " (приоритет: " ++ toString a.priority ++ "/5)\n"
      ++ addressLines (i + 1) rest

/-- Warehouse delay lines of `create_prompt`. -/
def delayLines : List (String × Int) → String
  | [] => ""
  | (w, d) :: rest => "  * " ++ w ++ ": +" ++ toString d ++ " минут\n" ++ delayLines rest

/-- Weather section: emitted only when the value is Python-truthy. -/
def weatherBlock (d : AgentData) : String :=
  match d.weather_condition with
  | none => ""
  | some w => if w = "" then "" else "- Погода: " ++ weatherPhrase w ++ "\n"

/-- Traffic section: emitted only when the value is Python-truthy. -/
def trafficBlock (d : AgentData) : String :=
  match d.traffic_condition with
  | none => ""
  | some t => if t = "" then "" else "- Пробки: " ++ trafficPhrase t ++ "\n"

/-- Warehouse-delay section: emitted only when the mapping is non-empty. -/
def delaysBlock (d : AgentData) : String :=
  if d.warehouse_delays = [] then ""
  else "- Задержки на складах:\n" ++ delayLines d.warehouse_delays

/-- Special-requirements section: emitted only when the list is
non-empty; note that nothing at all is emitted for an empty list. -/
def reqsBlock (d : AgentData) : String :=
  if d.special_requirements = [] then ""
  else "- Особые требования: " ++ String.intercalate ", " d.special_requirements ++ "\n"

/-- Model of `RouteOptimizerAgent.create_prompt` (`agent/main.py` 38-94). -/
def create_prompt (d : AgentData) : String :=
  "\nЗадача оптимизации маршрута доставки:\n\nАДРЕСА ДОСТАВКИ:\n"
    ++ addressLines 1 d.addresses
    ++ "\nУСЛОВИЯ:\n"
    ++ weatherBlock d
    ++ trafficBlock d
    ++ delaysBlock d
    ++ reqsBlock d
    ++ "\nОпредели оптимальный порядок доставки, учитывая:\n1. Приоритеты клиентов\n2. Погодные условия\n3. Пробки\n4. Задержки на складах\n5. Особые требования\n\nОтветь в формате JSON с полями: optimized_route, explanation, total_estimated_time\n"

/-- Model of the direct-mode normalizer, `RouteOptimizerAgent.optimize_route`
(`agent/main.py` 109-144): on a reply, strip it and try `json.loads` on
the whole text, passing a successful parse through verbatim and
otherwise synthesizing the free-text fallback; on a raised error,
synthesize the error fallback. -/
def optimize_route (addrs : List AAddr) (o : ModelOutcome) : Json :=
  match o with
  | .failure e =>
    .obj [("optimized_route", .arr ((identityRoute addrs).map .str)),
          ("explanation", .str ("Ошибка при обращении к ChatGPT: " ++ e)),
          ("total_estimated_time", .str "неизвестно")]
  | .reply t =>
    let rt := pyStrip t
    match jsonParse rt with
    | some v => v
    | none =>
      .obj [("optimized_route", .arr ((identityRoute addrs).map .str)),
            ("explanation", .str rt),
            ("total_estimated_time", .str "2-3 часа")]

end RouteOptimizerAgent

/-! ## CrewAI pipeline (`agent/crewai_agents.py`) -/

/-- Raw output of `crew.kickoff()`: either a text blob or an
already-structured value. -/
inductive CrewRaw where
  | text (s : String) : CrewRaw
  | structured (j : Json) : CrewRaw
deriving Repr

/-- Outcome of the pipeline run: the kickoff output, or any raised
error (setup failure, stage failure, transport failure). -/
inductive CrewOutcome where
  | output (r : CrewRaw) : CrewOutcome
  | failure (err : String) : CrewOutcome
deriving Repr

namespace RouteOptimizationCrew

/-- Model of the pipeline-mode result processing inside
`RouteOptimizationCrew.optimize_route` (`crewai_agents.py` 222-264):
a structured kickoff result passes through verbatim; a text result is
searched for a greedy brace span, which is parsed and passed through
verbatim on success; a text with no span gets the identity fallback
carrying the raw text as explanation; a span that fails to parse gets
a distinct fallback whose explanation embeds the raw text; any raised
error gets the error fallback with `success_probability` 1. -/
def optimize_route (addrs : List AAddr) (o : CrewOutcome) : Json :=
  match o with
  | .failure e =>
    .obj [("optimized_route", .arr ((identityRoute addrs).map .str)),
          ("explanation", .str ("Ошибка CrewAI: " ++ e)),
          ("total_estimated_time", .str "неизвестно"),
          ("risk_assessment", .str "Ошибка в процессе анализа"),
          ("success_probability", .num 1)]
  | .output (.structured j) => j
  | .output (.text s) =>
    match extractSpan s with
    | some span =>
      (match jsonParse span with
       | some j => j
       | none =>
         .obj [("optimized_route", .arr ((identityRoute addrs).map .str)),
               ("explanation", .str ("CrewAI анализ завершен. Результат: " ++ s)),
               ("total_estimated_time", .str "2-3 часа"),
               ("risk_assessment", .str "Анализ завершен успешно"),
               ("success_probability", .num 7)])
    | none =>
      .obj [("optimized_route", .arr ((identityRoute addrs).map .str)),
            ("explanation", .str s),
            ("total_estimated_time", .str "2-3 часа"),
            ("risk_assessment", .str "Стандартные риски доставки"),
            ("success_probability", .num 8)]

/-- Numbered address lines built by the pipeline entry
(`enumerate(addresses)` with `i+1`, joined with a newline). -/
def crewAddressLines : Nat → List AAddr → List String
  | _, [] => []
  | i, a :: rest =>
    (toString i ++ ". " ++ a.address ++ " (приоритет: " ++ toString a.priority ++ "/5)")
      :: crewAddressLines (i + 1) rest

/-- The `addresses_str` string of the pipeline entry. -/
def addressesStr (addrs : List AAddr) : String :=
  String.intercalate "\n" (crewAddressLines 1 addrs)

/-- The `priorities_str` string of the pipeline entry. -/
def prioritiesStr (addrs : List AAddr) : String :=
  String.intercalate ", " (addrs.map (fun a => a.address ++ ": " ++ toString a.priority))

/-- Special-requirements string with the explicit "нет" marker for an
empty list (`", ".join(requirements) if requirements else "нет"`). -/
def crewReqStr (reqs : List String) : String :=
  if reqs = [] then "нет" else String.intercalate ", " reqs

/-- The `data.get("weather_condition", "unknown")` read. -/
def weatherOf (d : AgentData) : String :=
  d.weather_condition.getD "unknown"

/-- The `data.get("traffic_condition", "unknown")` read. -/
def trafficOf (d : AgentData) : String :=
  d.traffic_condition.getD "unknown"

end RouteOptimizationCrew

namespace RouteOptimizationCrew

/-- Task template of `self.weather_task` (`crewai_agents.py` 89-105),
holding the `\x7bweather_condition\x7d` placeholder. -/
def weatherTaskTemplate : String :=
  "Analyze the weather conditions: \x7bweather_condition\x7d\n            and provide insights on how it affects delivery routes.\n            Consider factors like:\n            - Road safety\n            - Visibility\n            - Delivery time impact\n            - Special precautions needed\n            \n            Return your analysis in JSON format with fields:\n            - impact_level: low/medium/high\n            - safety_concerns: list of concerns\n            - time_adjustment: estimated time increase in minutes\n            - recommendations: list of recommendations"

/-- Task template of `self.traffic_task` (`crewai_agents.py` 108-124). -/
def trafficTaskTemplate : String :=
  "Analyze the traffic conditions: \x7btraffic_condition\x7d\n            and provide insights on optimal routing strategies.\n            Consider factors like:\n            - Peak hours impact\n            - Alternative routes\n            - Time delays\n            - Route efficiency\n            \n            Return your analysis in JSON format with fields:\n            - congestion_level: low/medium/high\n            - estimated_delay: minutes of delay\n            - alternative_routes: list of alternative options\n            - optimal_timing: best times for delivery"

/-- Task template of `self.route_task` (`crewai_agents.py` 127-144),
holding the `\x7baddresses\x7d`, `\x7bpriorities\x7d` and
`\x7bspecial_requirements\x7d` placeholders. -/
def routeTaskTemplate : String :=
  "Create an optimized delivery route for the following addresses:\n            \x7baddresses\x7d\n            \n            Consider:\n            - Customer priorities: \x7bpriorities\x7d\n            - Weather analysis from weather analyst\n            - Traffic analysis from traffic monitor\n            - Special requirements: \x7bspecial_requirements\x7d\n            \n            Return the optimized route in JSON format with fields:\n            - optimized_route: ordered list of addresses\n            - total_estimated_time: estimated total delivery time\n            - route_efficiency_score: efficiency rating 1-10\n            - reasoning: detailed explanation of route optimization"

/-- Task template of `self.coordination_task` (`crewai_agents.py`
147-164); it holds no placeholder and is never re-formatted. -/
def coordTaskTemplate : String :=
  "As the delivery coordinator, synthesize all analyses and \n            create the final optimized delivery plan.\n            \n            Use insights from:\n            - Weather analysis\n            - Traffic analysis  \n            - Route planning\n            \n            Create the final delivery plan in JSON format with fields:\n            - optimized_route: final ordered list of addresses\n            - explanation: comprehensive explanation of the optimization strategy\n            - total_estimated_time: final estimated delivery time\n            - risk_assessment: potential risks and mitigations\n            - success_probability: probability of successful delivery (1-10)"

/-- Mutable task-description state of the singleton
`RouteOptimizationCrew` instance: the `description` attributes of the
four `Task` objects created once in `setup_tasks`. -/
structure CrewState where
  weatherDesc : String
  trafficDesc : String
  routeDesc : String
  coordDesc : String
deriving Repr, DecidableEq

/-- State of the crew right after `__init__` (`setup_tasks`). -/
def initialCrewState : CrewState :=
  ⟨weatherTaskTemplate, trafficTaskTemplate, routeTaskTemplate, coordTaskTemplate⟩

/-- Model of the per-call task preparation inside
`RouteOptimizationCrew.optimize_route` (`crewai_agents.py` 188-201):
each call formats the *current* description attributes with the current
request's data and stores the result back into the same attributes;
`none` models a raised formatting error (caught by the surrounding
`except`).  The returned state is both the state observed by this
call's prompts and the state the next call starts from. -/
def crewSetup (st : CrewState) (d : AgentData) : Option CrewState :=
  match pyFormat st.weatherDesc [("weather_condition", weatherOf d)] with
  | none => none
  | some w =>
    match pyFormat st.trafficDesc [("traffic_condition", trafficOf d)] with
    | none => none
    | some t =>
      match pyFormat st.routeDesc
          [("addresses", addressesStr d.addresses),
           ("priorities", prioritiesStr d.addresses),
           ("special_requirements", crewReqStr d.special_requirements)] with
      | none => none
      | some r => some ⟨w, t, r, st.coordDesc⟩

end RouteOptimizationCrew

/-! ## Gateway tier (`backend/main.py`) -/

/-- Address entry as it arrives on the wire at the gateway; `pydantic`
fills a missing `priority` with the declared default. -/
structure WireAddress where
  address : String
  priority : Option Int
deriving Repr, DecidableEq

/-- Gateway `Address` model after validation (`backend/main.py` 20-22):
`priority: int = 1`. -/
structure GAddress where
  address : String
  priority : Int
deriving Repr, DecidableEq

/-- Model of the `pydantic` parse of one address entry: a missing
priority becomes the default 1. -/
def parseAddress (w : WireAddress) : GAddress :=
  ⟨w.address, w.priority.getD 1⟩

/-- Gateway `DeliveryRequest` model (`backend/main.py` 24-29). -/
structure GDeliveryRequest where
  addresses : List GAddress
  weather_condition : Option String
  traffic_condition : Option String
  warehouse_delays : List (String × Int)
  special_requirements : List String
deriving Repr, DecidableEq

/-- Gateway `RouteResponse` model (`backend/main.py` 31-34): exactly
three fields. -/
structure RouteResponse where
  optimized_route : List String
  explanation : String
  total_estimated_time : Option String
deriving Repr, DecidableEq

/-- Serialized body of a `RouteResponse` under `response_model`
filtering: exactly the three declared fields, in declaration order. -/
def RouteResponse.renderFields (r : RouteResponse) : List (String × Json) :=
  [("optimized_route", .arr (r.optimized_route.map .str)),
   ("explanation", .str r.explanation),
   ("total_estimated_time", match r.total_estimated_time with
                            | some s => .str s
                            | none => .null)]

/-- The `addresses` entry of the `agent_data` dictionary forwarded to
the agent tier (`backend/main.py` 61-67). -/
def agentDataAddresses (req : GDeliveryRequest) : List (String × Int) :=
  req.addresses.map (fun a => (a.address, a.priority))

/-- Outcome of the outbound `httpx` call: connection failure, timeout,
or an HTTP response with a status code and a body text. -/
inductive Upstream where
  | connectError : Upstream
  | timeoutError : Upstream
  | response (status : Nat) (text : String) : Upstream
deriving Repr

/-- Python exceptions that can escape the `try` block of the gateway
handlers. -/
inductive PyExc where
  | httpExc (code : Nat) (detail : String) : PyExc
  | timeout : PyExc
  | connect : PyExc
  | pyError (msg : String) : PyExc
deriving Repr, DecidableEq

/-- The `str(e)` rendering used by the catch-all handler; Starlette's
`HTTPException.__str__` prints "code: detail". -/
def excText : PyExc → String
  | .httpExc c d => toString c ++ ": " ++ d
  | .timeout => "timeout"
  | .connect => "connect error"
  | .pyError m => m

/-- Extract a list of strings from a list of JSON values, failing on
the first non-string element. -/
def strsOf : List Json → Option (List String)
  | [] => some []
  | .str s :: rest =>
    (match strsOf rest with
     | some l => some (s :: l)
     | none => none)
  | _ :: _ => none

/-- List of strings from a JSON array of strings (the `pydantic`
validation of `optimized_route`); `none` on any other shape. -/
def getStrList : Json → Option (List String)
  | .arr xs => strsOf xs
  | _ => none

/-- The `pydantic` construction `RouteResponse(optimized_route=
result.get("optimized_route", []), explanation=result.get("explanation",
""), total_estimated_time=result.get("total_estimated_time"))`
(`backend/main.py` 85-89), raising a validation error on ill-typed
fields and an attribute error when the parsed body is not an object. -/
def buildRouteResponse (result : Json) : Except PyExc RouteResponse :=
  match result with
  | .obj _ =>
    let routeJ := (lookupJ result "optimized_route").getD (.arr [])
    let explJ := (lookupJ result "explanation").getD (.str "")
    let explOk : Option String := match explJ with | .str s => some s | _ => none
    let tetOk : Option (Option String) :=
      match lookupJ result "total_estimated_time" with
      | none => some none
      | some .null => some none
      | some (.str s) => some (some s)
      | some _ => none
    match getStrList routeJ, explOk, tetOk with
    | some r, some e, some t => .ok ⟨r, e, t⟩
    | _, _, _ => .error (.pyError "ValidationError")
  | _ => .error (.pyError "AttributeError")

/-- Body of the `try` block of `optimize_route` (`backend/main.py`
52-89): validation raises `HTTPException(400)`, the outbound call may
raise the transport exceptions, a non-200 agent status raises
`HTTPException(500)`, and a 200 body is parsed and validated. -/
def tryBody (req : GDeliveryRequest) (up : Upstream) : Except PyExc RouteResponse :=
  if req.addresses.isEmpty then
    .error (.httpExc 400 "Список адресов не может быть пустым")
  else if req.addresses.length < 2 then
    .error (.httpExc 400 "Необходимо минимум 2 адреса для оптимизации")
  else
    match up with
    | .timeoutError => .error .timeout
    | .connectError => .error .connect
    | .response status text =>
      if status ≠ 200 then .error (.httpExc 500 ("Ошибка агента: " ++ text))
      else
        match jsonParse text with
        | none => .error (.pyError "JSONDecodeError")
        | some body => buildRouteResponse body

/-- HTTP reply of the gateway: a 200 with a `RouteResponse` body, or an
error status with a detail string. -/
inductive GatewayReply where
  | ok (body : RouteResponse) : GatewayReply
  | err (status : Nat) (detail : String) : GatewayReply
deriving Repr, DecidableEq

/-- Status code of a gateway reply. -/
def gatewayStatus : GatewayReply → Nat
  | .ok _ => 200
  | .err s _ => s

/-- Model of the `POST /optimize-route` handler (`backend/main.py`
47-96) including its `except` routing: `httpx.TimeoutException` maps to
504 and `httpx.ConnectError` to 503, while *every other* exception —
including the handler's own `HTTPException(400)` validation failures,
which are `Exception` subclasses — is caught by the final
`except Exception` clause and re-raised as a 500 whose detail embeds
`str(e)`. -/
def optimize_route_endpoint (req : GDeliveryRequest) (up : Upstream) : GatewayReply :=
  match tryBody req up with
  | .ok r => .ok r
  | .error .timeout => .err 504 "Таймаут запроса к агенту"
  | .error .connect => .err 503 "Агент недоступен"
  | .error e => .err 500 ("Внутренняя ошибка сервера: " ++ excText e)

/-! ## Fixtures -/

/-- Gateway request with an empty address list. -/
def gwEmptyReq : GDeliveryRequest := ⟨[], none, none, [], []⟩

/-- Gateway request with exactly one address. -/
def gwSingleReq : GDeliveryRequest := ⟨[⟨"Адрес А", 3⟩], none, none, [], []⟩

/-- Gateway request with two valid addresses. -/
def gwReq2 : GDeliveryRequest :=
  ⟨[⟨"Адрес А", 3⟩, ⟨"Адрес Б", 5⟩], some "rain", some "heavy", [], []⟩

/-- First pipeline-mode request used for the shared-state analysis. -/
def c7d1 : AgentData := ⟨[⟨"Улица Один", 3⟩], some "rain", some "heavy", [], []⟩

/-- Second, different pipeline-mode request used for the shared-state
analysis. -/
def c7d2 : AgentData := ⟨[⟨"Улица Два", 5⟩], some "sunny", some "light", [], []⟩

/-! ## Schema conformance -/

/-- Executable check that a JSON value is an array of strings. -/
def isStrArrB : Json → Bool
  | .arr xs => xs.all (fun x => match x with | .str _ => true | _ => false)
  | _ => false

/-- Executable check of the RouteResult shape required of every
normalizer output: an object with an `optimized_route` array of strings
and an `explanation` string. -/
def isRouteResultB (j : Json) : Bool :=
  (match lookupJ j "optimized_route" with
   | some a => isStrArrB a
   | none => false)
  && (match lookupJ j "explanation" with
      | some (.str _) => true
      | _ => false)

/-- Concrete model reply whose parsed object carries an empty route. -/
def c4reply : String := "\x7b\"optimized_route\": [], \"explanation\": \"пусто\"\x7d"

/-- Raw reply with a well-formed RouteResult object embedded in
surrounding prose. -/
def c5reply : String :=
  "Вот маршрут: \x7b\"optimized_route\": [\"Адрес Б\", \"Адрес А\"], \"explanation\": \"Б приоритетнее\"\x7d конец"

/-- Agent 200-reply carrying all five RouteResult fields, including the
two optional ones the gateway model does not declare. -/
def c8text : String :=
  "\x7b\"optimized_route\": [\"Адрес Б\", \"Адрес А\"], \"explanation\": \"Б приоритетнее\", \"total_estimated_time\": \"1 час\", \"risk_assessment\": \"стандартные риски\", \"success_probability\": 9\x7d"

/-! ## Substring occurrence -/

/-- Occurrence of `p` as a contiguous substring of `s`. -/
abbrev strOccurs (p s : String) : Prop := p.data <:+: s.data

/-- The fragment of the prompt rendering one address with its priority. -/
def addrFrag (a : AAddr) : String :=
  a.address ++ " (приоритет: " ++ toString a.priority ++ "/5)\n"

/-- Agent request with an empty special-requirements list. -/
def c9empty : AgentData :=
  ⟨[⟨"ул. Ленина, 10", 3⟩], some "rain", some "heavy", [("warehouse_1", 15)], []⟩

/-- Agent request with every optional section populated. -/
def c9full : AgentData :=
  ⟨[⟨"ул. Ленина, 10", 3⟩], some "rain", some "heavy", [("warehouse_1", 15)],
   ["хрупкий груз", "срочная доставка"]⟩

set_option maxRecDepth 100000

/-! ## Claim theorems -/

/-- C1: the claim says an empty or single-element address list yields
HTTP 400.  In the code both `HTTPException(400)` raises sit inside the
`try` block whose final `except Exception` clause catches every
`Exception` — `HTTPException` included — and re-raises it as a 500, so
the two validation failures actually surface as 500 regardless of the
upstream state; the 504/503/500 upstream mappings behave as claimed. -/
theorem C1_validation_status_swallowed :
    (∀ up, gatewayStatus (optimize_route_endpoint gwEmptyReq up) = 500)
      ∧ (∀ up, gatewayStatus (optimize_route_endpoint gwSingleReq up) = 500)
      ∧ gatewayStatus (optimize_route_endpoint gwReq2 .timeoutError) = 504
      ∧ gatewayStatus (optimize_route_endpoint gwReq2 .connectError) = 503
      ∧ gatewayStatus (optimize_route_endpoint gwReq2 (.response 502 "Bad Gateway")) = 500 :=
  ⟨fun _ => rfl, fun _ => rfl, rfl, rfl, rfl⟩

/-- C2 counterexample: in the direct-mode error branch the returned
object carries no `success_probability` field at all, so it does not
equal the claimed minimum value 1 there. -/
theorem C2_counterexample_direct_no_success_probability :
    lookupJ (RouteOptimizerAgent.optimize_route [⟨"Адрес А", 3⟩]
      (.failure "Connection error.")) "success_probability" = none := rfl

/-- C2 amended: on a Model Client error both error branches return the
identity route, an explanation embedding the failure cause and the
"неизвестно" sentinel; the pipeline-mode branch sets
`success_probability` to the minimum 1 while the direct-mode branch
omits the field entirely. -/
theorem C2_error_fallback_fields :
    ∀ (addrs : List AAddr) (e : String),
      RouteOptimizerAgent.optimize_route addrs (.failure e)
          = .obj [("optimized_route", .arr ((identityRoute addrs).map .str)),
                  ("explanation", .str ("Ошибка при обращении к ChatGPT: " ++ e)),
                  ("total_estimated_time", .str "неизвестно")]
        ∧ lookupJ (RouteOptimizerAgent.optimize_route addrs (.failure e))
            "success_probability" = none
        ∧ RouteOptimizationCrew.optimize_route addrs (.failure e)
          = .obj [("optimized_route", .arr ((identityRoute addrs).map .str)),
                  ("explanation", .str ("Ошибка CrewAI: " ++ e)),
                  ("total_estimated_time", .str "неизвестно"),
                  ("risk_assessment", .str "Ошибка в процессе анализа"),
                  ("success_probability", .num 1)]
        ∧ lookupJ (RouteOptimizationCrew.optimize_route addrs (.failure e))
            "success_probability" = some (.num 1) :=
  fun _ _ => ⟨rfl, rfl, rfl, rfl⟩

set_option maxRecDepth 100000 in
/-- C7: the pipeline-mode call formats the shared `Task.description`
attributes in place, so after a first call the placeholders are gone
and a second call re-uses the first call's substituted text: running
the setup for `c7d2` after `c7d1` leaves the state exactly as the
`c7d1` call produced it, which differs from what an independent `c7d2`
call would produce — cross-call shared mutable state is observable. -/
theorem C7_pipeline_state_leak :
    (RouteOptimizationCrew.crewSetup RouteOptimizationCrew.initialCrewState c7d1).bind
        (fun s1 => RouteOptimizationCrew.crewSetup s1 c7d2)
      = RouteOptimizationCrew.crewSetup RouteOptimizationCrew.initialCrewState c7d1
    ∧ RouteOptimizationCrew.crewSetup RouteOptimizationCrew.initialCrewState c7d1
      ≠ RouteOptimizationCrew.crewSetup RouteOptimizationCrew.initialCrewState c7d2 := by
  constructor
  · rfl
  · decide

/-- C10: forwarding composed with the `pydantic` parse sends every wire
address to a pair of its address string and its integer priority, with
a missing priority becoming the declared default 1. -/
theorem C10_default_priority_forwarded :
    ∀ (ws : List WireAddress),
      agentDataAddresses ⟨ws.map parseAddress, none, none, [], []⟩
          = ws.map (fun w => (w.address, w.priority.getD 1))
        ∧ (parseAddress ⟨"ул. Ленина, 10", none⟩).priority = 1 := by
  intro ws
  refine ⟨?_, rfl⟩
  simp [agentDataAddresses, parseAddress, List.map_map]

/-- An array built from a list of strings always passes `isStrArrB`. -/
theorem isStrArrB_map_str (l : List String) : isStrArrB (.arr (l.map .str)) = true := by
  induction l with
  | nil => rfl
  | cons h t ih =>
    show (true && isStrArrB (.arr (t.map .str))) = true
    rw [Bool.true_and]
    exact ih

/-- Every object whose first two fields are a string route array and a
string explanation passes the RouteResult shape check. -/
theorem isRouteResultB_obj (l : List String) (e : String) (tl : List (String × Json)) :
    isRouteResultB (.obj (("optimized_route", .arr (l.map .str))
      :: ("explanation", .str e) :: tl)) = true := by
  show (isStrArrB (.arr (l.map .str)) && true) = true
  rw [isStrArrB_map_str]
  rfl

/-- C3 counterexample: a raw reply that is valid JSON but not an object
of the RouteResult shape — here the array `[1, 2, 3]` — is passed
through verbatim by the direct-mode normalizer, so the returned value
does not conform to the RouteResult schema. -/
theorem C3_counterexample_nonobject_json_passthrough :
    RouteOptimizerAgent.optimize_route [⟨"Адрес А", 3⟩] (.reply "[1, 2, 3]")
        = .arr [.num 1, .num 2, .num 3]
      ∧ isRouteResultB (RouteOptimizerAgent.optimize_route [⟨"Адрес А", 3⟩]
          (.reply "[1, 2, 3]")) = false :=
  ⟨rfl, rfl⟩

/-- C3 amended: the normalizers never raise (they are total functions of
the modelled outcome) and every fallback path — provider failure,
unparsable direct-mode reply, pipeline reply without a brace span, and
pipeline span that fails to parse — returns a schema-conformant
RouteResult; only a successfully parsed reply is passed through without
a shape guarantee. -/
theorem C3_fallback_schema_conformant :
    ∀ (addrs : List AAddr) (e t s : String),
      isRouteResultB (RouteOptimizerAgent.optimize_route addrs (.failure e)) = true
      ∧ (jsonParse (pyStrip t) = none →
          isRouteResultB (RouteOptimizerAgent.optimize_route addrs (.reply t)) = true)
      ∧ isRouteResultB (RouteOptimizationCrew.optimize_route addrs (.failure e)) = true
      ∧ (extractSpan s = none →
          isRouteResultB (RouteOptimizationCrew.optimize_route addrs
            (.output (.text s))) = true)
      ∧ (∀ span, extractSpan s = some span → jsonParse span = none →
          isRouteResultB (RouteOptimizationCrew.optimize_route addrs
            (.output (.text s))) = true) := by
  intro addrs e t s
  refine ⟨isRouteResultB_obj _ _ _, ?_, isRouteResultB_obj _ _ _, ?_, ?_⟩
  · intro h
    have hd : RouteOptimizerAgent.optimize_route addrs (.reply t)
        = (match jsonParse (pyStrip t) with
           | some v => v
           | none =>
             .obj [("optimized_route", .arr ((identityRoute addrs).map .str)),
                   ("explanation", .str (pyStrip t)),
                   ("total_estimated_time", .str "2-3 часа")]) := rfl
    rw [hd, h]
    exact isRouteResultB_obj _ _ _
  · intro h
    have hd : RouteOptimizationCrew.optimize_route addrs (.output (.text s))
        = (match extractSpan s with
           | some span =>
             (match jsonParse span with
              | some j => j
              | none =>
                .obj [("optimized_route", .arr ((identityRoute addrs).map .str)),
                      ("explanation", .str ("CrewAI анализ завершен. Результат: " ++ s)),
                      ("total_estimated_time", .str "2-3 часа"),
                      ("risk_assessment", .str "Анализ завершен успешно"),
                      ("success_probability", .num 7)])
           | none =>
             .obj [("optimized_route", .arr ((identityRoute addrs).map .str)),
                   ("explanation", .str s),
                   ("total_estimated_time", .str "2-3 часа"),
                   ("risk_assessment", .str "Стандартные риски доставки"),
                   ("success_probability", .num 8)]) := rfl
    rw [hd, h]
    exact isRouteResultB_obj _ _ _
  · intro span hspan hparse
    have hd : RouteOptimizationCrew.optimize_route addrs (.output (.text s))
        = (match extractSpan s with
           | some span =>
             (match jsonParse span with
              | some j => j
              | none =>
                .obj [("optimized_route", .arr ((identityRoute addrs).map .str)),
                      ("explanation", .str ("CrewAI анализ завершен. Результат: " ++ s)),
                      ("total_estimated_time", .str "2-3 часа"),
                      ("risk_assessment", .str "Анализ завершен успешно"),
                      ("success_probability", .num 7)])
           | none =>
             .obj [("optimized_route", .arr ((identityRoute addrs).map .str)),
                   ("explanation", .str s),
                   ("total_estimated_time", .str "2-3 часа"),
                   ("risk_assessment", .str "Стандартные риски доставки"),
                   ("success_probability", .num 8)]) := rfl
    rw [hd, hspan]
    show isRouteResultB
        (match jsonParse span with
         | some j => j
         | none =>
           .obj [("optimized_route", .arr ((identityRoute addrs).map .str)),
                 ("explanation", .str ("CrewAI анализ завершен. Результат: " ++ s)),
                 ("total_estimated_time", .str "2-3 часа"),
                 ("risk_assessment", .str "Анализ завершен успешно"),
                 ("success_probability", .num 7)]) = true
    rw [hparse]
    exact isRouteResultB_obj _ _ _

/-- C3 witness: the conformance statements evaluated on concrete
unparsable replies. -/
theorem C3_fallback_schema_conformant_witness :
    isRouteResultB (RouteOptimizerAgent.optimize_route [⟨"Адрес А", 3⟩]
        (.reply "обычный текст")) = true
      ∧ isRouteResultB (RouteOptimizationCrew.optimize_route [⟨"Адрес А", 3⟩]
          (.output (.text "текст без скобок"))) = true
      ∧ isRouteResultB (RouteOptimizationCrew.optimize_route [⟨"Адрес А", 3⟩]
          (.output (.text "x \x7bне json\x7d y"))) = true :=
  ⟨(C3_fallback_schema_conformant [⟨"Адрес А", 3⟩] "err" "обычный текст" "t").2.1 rfl,
   (C3_fallback_schema_conformant [⟨"Адрес А", 3⟩] "err" "t" "текст без скобок").2.2.2.1 rfl,
   (C3_fallback_schema_conformant [⟨"Адрес А", 3⟩] "err" "t" "x \x7bне json\x7d y").2.2.2.2
     "\x7bне json\x7d" rfl rfl⟩

/-- C4 counterexample: with a non-empty input address list, a reply
that parses to an object with an empty `optimized_route` is passed
through verbatim, so the returned route is empty — non-emptiness holds
only on the fallback paths, not universally. -/
theorem C4_counterexample_model_empty_route :
    lookupJ (RouteOptimizerAgent.optimize_route [⟨"Адрес А", 3⟩] (.reply c4reply))
        "optimized_route" = some (.arr []) := rfl

/-- C4 amended: on every path where the model output cannot be parsed
(provider failure, unparsable direct-mode reply, pipeline reply without
a span, pipeline span that fails to parse) the returned
`optimized_route` is exactly the input addresses' address strings in
input order, hence non-empty whenever the input list is non-empty. -/
theorem C4_unparsed_identity_route :
    ∀ (addrs : List AAddr) (e t s : String),
      lookupJ (RouteOptimizerAgent.optimize_route addrs (.failure e)) "optimized_route"
          = some (.arr ((identityRoute addrs).map .str))
      ∧ (jsonParse (pyStrip t) = none →
          lookupJ (RouteOptimizerAgent.optimize_route addrs (.reply t)) "optimized_route"
            = some (.arr ((identityRoute addrs).map .str)))
      ∧ lookupJ (RouteOptimizationCrew.optimize_route addrs (.failure e)) "optimized_route"
          = some (.arr ((identityRoute addrs).map .str))
      ∧ (extractSpan s = none →
          lookupJ (RouteOptimizationCrew.optimize_route addrs (.output (.text s)))
              "optimized_route"
            = some (.arr ((identityRoute addrs).map .str)))
      ∧ (∀ span, extractSpan s = some span → jsonParse span = none →
          lookupJ (RouteOptimizationCrew.optimize_route addrs (.output (.text s)))
              "optimized_route"
            = some (.arr ((identityRoute addrs).map .str)))
      ∧ (addrs ≠ [] → (identityRoute addrs).map Json.str ≠ []) := by
  intro addrs e t s
  refine ⟨rfl, ?_, rfl, ?_, ?_, ?_⟩
  · intro h
    have hd : RouteOptimizerAgent.optimize_route addrs (.reply t)
        = (match jsonParse (pyStrip t) with
           | some v => v
           | none =>
             .obj [("optimized_route", .arr ((identityRoute addrs).map .str)),
                   ("explanation", .str (pyStrip t)),
                   ("total_estimated_time", .str "2-3 часа")]) := rfl
    rw [hd, h]
    rfl
  · intro h
    have hd : RouteOptimizationCrew.optimize_route addrs (.output (.text s))
        = (match extractSpan s with
           | some span =>
             (match jsonParse span with
              | some j => j
              | none =>
                .obj [("optimized_route", .arr ((identityRoute addrs).map .str)),
                      ("explanation", .str ("CrewAI анализ завершен. Результат: " ++ s)),
                      ("total_estimated_time", .str "2-3 часа"),
                      ("risk_assessment", .str "Анализ завершен успешно"),
                      ("success_probability", .num 7)])
           | none =>
             .obj [("optimized_route", .arr ((identityRoute addrs).map .str)),
                   ("explanation", .str s),
                   ("total_estimated_time", .str "2-3 часа"),
                   ("risk_assessment", .str "Стандартные риски доставки"),
                   ("success_probability", .num 8)]) := rfl
    rw [hd, h]
    rfl
  · intro span hspan hparse
    have hd : RouteOptimizationCrew.optimize_route addrs (.output (.text s))
        = (match extractSpan s with
           | some span =>
             (match jsonParse span with
              | some j => j
              | none =>
                .obj [("optimized_route", .arr ((identityRoute addrs).map .str)),
                      ("explanation", .str ("CrewAI анализ завершен. Результат: " ++ s)),
                      ("total_estimated_time", .str "2-3 часа"),
                      ("risk_assessment", .str "Анализ завершен успешно"),
                      ("success_probability", .num 7)])
           | none =>
             .obj [("optimized_route", .arr ((identityRoute addrs).map .str)),
                   ("explanation", .str s),
                   ("total_estimated_time", .str "2-3 часа"),
                   ("risk_assessment", .str "Стандартные риски доставки"),
                   ("success_probability", .num 8)]) := rfl
    rw [hd, hspan]
    show lookupJ
        (match jsonParse span with
         | some j => j
         | none =>
           .obj [("optimized_route", .arr ((identityRoute addrs).map .str)),
                 ("explanation", .str ("CrewAI анализ завершен. Результат: " ++ s)),
                 ("total_estimated_time", .str "2-3 часа"),
                 ("risk_assessment", .str "Анализ завершен успешно"),
                 ("success_probability", .num 7)]) "optimized_route"
      = some (.arr ((identityRoute addrs).map .str))
    rw [hparse]
    rfl
  · intro hne
    simp [identityRoute, hne]

/-- C4 witness: the identity-route statements evaluated on concrete
unparsable replies and a non-empty address list. -/
theorem C4_unparsed_identity_route_witness :
    lookupJ (RouteOptimizerAgent.optimize_route [⟨"Адрес А", 3⟩]
        (.reply "обычный ответ")) "optimized_route" = some (.arr [.str "Адрес А"])
      ∧ lookupJ (RouteOptimizationCrew.optimize_route [⟨"Адрес А", 3⟩]
          (.output (.text "без скобок"))) "optimized_route" = some (.arr [.str "Адрес А"])
      ∧ lookupJ (RouteOptimizationCrew.optimize_route [⟨"Адрес А", 3⟩]
          (.output (.text "y \x7bплохой json\x7d z"))) "optimized_route"
          = some (.arr [.str "Адрес А"])
      ∧ ([⟨"Адрес А", 3⟩] : List AAddr) ≠ []
      ∧ (identityRoute [⟨"Адрес А", 3⟩]).map Json.str ≠ [] :=
  ⟨(C4_unparsed_identity_route [⟨"Адрес А", 3⟩] "e" "обычный ответ" "t").2.1 rfl,
   (C4_unparsed_identity_route [⟨"Адрес А", 3⟩] "e" "t" "без скобок").2.2.2.1 rfl,
   (C4_unparsed_identity_route [⟨"Адрес А", 3⟩] "e" "t" "y \x7bплохой json\x7d z").2.2.2.2.1
     "\x7bплохой json\x7d" rfl rfl,
   by decide,
   (C4_unparsed_identity_route [⟨"Адрес А", 3⟩] "e" "t" "s").2.2.2.2.2 (by decide)⟩

/-- C5 counterexample: the direct-mode normalizer performs no span
extraction at all — a reply with a well-formed RouteResult object
embedded in prose falls through to the free-text fallback (the whole
reply becomes the explanation) instead of returning the object's fields
verbatim; the pipeline-mode normalizer does extract and return it. -/
theorem C5_counterexample_direct_no_span_extraction :
    RouteOptimizerAgent.optimize_route [⟨"Адрес А", 3⟩] (.reply c5reply)
        = .obj [("optimized_route", .arr [.str "Адрес А"]),
                ("explanation", .str c5reply),
                ("total_estimated_time", .str "2-3 часа")]
      ∧ RouteOptimizationCrew.optimize_route [⟨"Адрес А", 3⟩] (.output (.text c5reply))
        = .obj [("optimized_route", .arr [.str "Адрес Б", .str "Адрес А"]),
                ("explanation", .str "Б приоритетнее")] :=
  ⟨rfl, rfl⟩

/-- C5 amended: span extraction exists only in pipeline mode, where the
greedy first-brace-to-last-brace span, when it parses, is returned
verbatim; in direct mode only a reply that is in its entirety (after
stripping) a single JSON value is parsed, and it is then returned
verbatim. -/
theorem C5_span_extraction_modes :
    ∀ (addrs : List AAddr) (r span t : String) (j v : Json),
      (extractSpan r = some span → jsonParse span = some j →
        RouteOptimizationCrew.optimize_route addrs (.output (.text r)) = j)
      ∧ (jsonParse (pyStrip t) = some v →
        RouteOptimizerAgent.optimize_route addrs (.reply t) = v) := by
  intro addrs r span t j v
  constructor
  · intro hspan hparse
    have hd : RouteOptimizationCrew.optimize_route addrs (.output (.text r))
        = (match extractSpan r with
           | some span =>
             (match jsonParse span with
              | some j => j
              | none =>
                .obj [("optimized_route", .arr ((identityRoute addrs).map .str)),
                      ("explanation", .str ("CrewAI анализ завершен. Результат: " ++ r)),
                      ("total_estimated_time", .str "2-3 часа"),
                      ("risk_assessment", .str "Анализ завершен успешно"),
                      ("success_probability", .num 7)])
           | none =>
             .obj [("optimized_route", .arr ((identityRoute addrs).map .str)),
                   ("explanation", .str r),
                   ("total_estimated_time", .str "2-3 часа"),
                   ("risk_assessment", .str "Стандартные риски доставки"),
                   ("success_probability", .num 8)]) := rfl
    rw [hd, hspan]
    show (match jsonParse span with
          | some j => j
          | none =>
            .obj [("optimized_route", .arr ((identityRoute addrs).map .str)),
                  ("explanation", .str ("CrewAI анализ завершен. Результат: " ++ r)),
                  ("total_estimated_time", .str "2-3 часа"),
                  ("risk_assessment", .str "Анализ завершен успешно"),
                  ("success_probability", .num 7)]) = j
    rw [hparse]
  · intro hv
    have hd : RouteOptimizerAgent.optimize_route addrs (.reply t)
        = (match jsonParse (pyStrip t) with
           | some v => v
           | none =>
             .obj [("optimized_route", .arr ((identityRoute addrs).map .str)),
                   ("explanation", .str (pyStrip t)),
                   ("total_estimated_time", .str "2-3 часа")]) := rfl
    rw [hd, hv]

/-- C5 witness: the pass-through statements evaluated on a concrete
reply with an embedded object and on a concrete pure-JSON reply. -/
theorem C5_span_extraction_modes_witness :
    RouteOptimizationCrew.optimize_route [⟨"Адрес А", 3⟩] (.output (.text c5reply))
        = .obj [("optimized_route", .arr [.str "Адрес Б", .str "Адрес А"]),
                ("explanation", .str "Б приоритетнее")]
      ∧ RouteOptimizerAgent.optimize_route [⟨"Адрес А", 3⟩]
          (.reply " \x7b\"a\": 1\x7d ") = .obj [("a", .num 1)] :=
  ⟨(C5_span_extraction_modes [⟨"Адрес А", 3⟩] c5reply
      "\x7b\"optimized_route\": [\"Адрес Б\", \"Адрес А\"], \"explanation\": \"Б приоритетнее\"\x7d"
      " \x7b\"a\": 1\x7d " _ (.obj [("a", .num 1)])).1 rfl rfl,
   (C5_span_extraction_modes [⟨"Адрес А", 3⟩] c5reply
      "\x7b\"optimized_route\": [\"Адрес Б\", \"Адрес А\"], \"explanation\": \"Б приоритетнее\"\x7d"
      " \x7b\"a\": 1\x7d " (.obj [("optimized_route", .arr [.str "Адрес Б", .str "Адрес А"]),
        ("explanation", .str "Б приоритетнее")]) (.obj [("a", .num 1)])).2 rfl⟩

/-- C6 counterexample: a reply that is plain text containing no JSON
object but is a valid JSON scalar — here "42" — is parsed and passed
through verbatim by the direct-mode normalizer, so the promised
fallback (identity route, raw text as explanation) does not happen. -/
theorem C6_counterexample_direct_scalar_json :
    RouteOptimizerAgent.optimize_route [⟨"Адрес А", 3⟩] (.reply "42") = .num 42
      ∧ lookupJ (RouteOptimizerAgent.optimize_route [⟨"Адрес А", 3⟩] (.reply "42"))
          "explanation" = none :=
  ⟨rfl, rfl⟩

/-- C6 amended: whenever the whole stripped reply fails to parse as
JSON (direct mode), or no brace span exists (pipeline mode), the
normalizer returns the identity route, the (stripped resp. raw) reply
text as explanation, and the "2-3 часа" default time sentinel. -/
theorem C6_free_text_fallback :
    ∀ (addrs : List AAddr) (t s : String),
      (jsonParse (pyStrip t) = none →
        RouteOptimizerAgent.optimize_route addrs (.reply t)
          = .obj [("optimized_route", .arr ((identityRoute addrs).map .str)),
                  ("explanation", .str (pyStrip t)),
                  ("total_estimated_time", .str "2-3 часа")])
      ∧ (extractSpan s = none →
        RouteOptimizationCrew.optimize_route addrs (.output (.text s))
          = .obj [("optimized_route", .arr ((identityRoute addrs).map .str)),
                  ("explanation", .str s),
                  ("total_estimated_time", .str "2-3 часа"),
                  ("risk_assessment", .str "Стандартные риски доставки"),
                  ("success_probability", .num 8)]) := by
  intro addrs t s
  constructor
  · intro h
    have hd : RouteOptimizerAgent.optimize_route addrs (.reply t)
        = (match jsonParse (pyStrip t) with
           | some v => v
           | none =>
             .obj [("optimized_route", .arr ((identityRoute addrs).map .str)),
                   ("explanation", .str (pyStrip t)),
                   ("total_estimated_time", .str "2-3 часа")]) := rfl
    rw [hd, h]
  · intro h
    have hd : RouteOptimizationCrew.optimize_route addrs (.output (.text s))
        = (match extractSpan s with
           | some span =>
             (match jsonParse span with
              | some j => j
              | none =>
                .obj [("optimized_route", .arr ((identityRoute addrs).map .str)),
                      ("explanation", .str ("CrewAI анализ завершен. Результат: " ++ s)),
                      ("total_estimated_time", .str "2-3 часа"),
                      ("risk_assessment", .str "Анализ завершен успешно"),
                      ("success_probability", .num 7)])
           | none =>
             .obj [("optimized_route", .arr ((identityRoute addrs).map .str)),
                   ("explanation", .str s),
                   ("total_estimated_time", .str "2-3 часа"),
                   ("risk_assessment", .str "Стандартные риски доставки"),
                   ("success_probability", .num 8)]) := rfl
    rw [hd, h]

/-- C6 witness: the fallback statements evaluated on a concrete
free-text reply in both modes. -/
theorem C6_free_text_fallback_witness :
    RouteOptimizerAgent.optimize_route [⟨"Адрес А", 3⟩] (.reply "еду как обычно")
        = .obj [("optimized_route", .arr [.str "Адрес А"]),
                ("explanation", .str "еду как обычно"),
                ("total_estimated_time", .str "2-3 часа")]
      ∧ RouteOptimizationCrew.optimize_route [⟨"Адрес А", 3⟩]
          (.output (.text "еду как обычно"))
        = .obj [("optimized_route", .arr [.str "Адрес А"]),
                ("explanation", .str "еду как обычно"),
                ("total_estimated_time", .str "2-3 часа"),
                ("risk_assessment", .str "Стандартные риски доставки"),
                ("success_probability", .num 8)] :=
  ⟨(C6_free_text_fallback [⟨"Адрес А", 3⟩] "еду как обычно" "еду как обычно").1 rfl,
   (C6_free_text_fallback [⟨"Адрес А", 3⟩] "еду как обычно" "еду как обычно").2 rfl⟩

/-- Mapping a list of strings into JSON strings and extracting it back
is the identity. -/
theorem strsOf_map_str (l : List String) : strsOf (l.map .str) = some l := by
  induction l with
  | nil => rfl
  | cons h t ih =>
    show (match strsOf (t.map .str) with
          | some l => some (h :: l)
          | none => none) = some (h :: t)
    rw [ih]

set_option maxRecDepth 100000 in
/-- C8 counterexample: on a 200 agent reply carrying `risk_assessment`
and `success_probability`, the gateway's `RouteResponse` keeps only its
three declared fields, so the two extra fields are dropped from the
serialized response instead of appearing verbatim. -/
theorem C8_counterexample_fields_dropped :
    optimize_route_endpoint gwReq2 (.response 200 c8text)
        = .ok ⟨["Адрес Б", "Адрес А"], "Б приоритетнее", some "1 час"⟩
      ∧ (RouteResponse.renderFields
          ⟨["Адрес Б", "Адрес А"], "Б приоритетнее", some "1 час"⟩).lookup
          "risk_assessment" = none
      ∧ (RouteResponse.renderFields
          ⟨["Адрес Б", "Адрес А"], "Б приоритетнее", some "1 час"⟩).lookup
          "success_probability" = none :=
  ⟨rfl, rfl, rfl⟩

/-- C8 amended: on a 200 agent reply whose body carries a string-array
`optimized_route`, a string `explanation` and a string
`total_estimated_time`, the gateway returns exactly those three values
verbatim, and the serialized response consists of exactly the three
declared field names — any further body fields are dropped. -/
theorem C8_passthrough_three_fields :
    ∀ (t : String) (fs : List (String × Json)) (route : List String) (expl tet : String),
      jsonParse t = some (.obj fs) →
      fs.lookup "optimized_route" = some (.arr (route.map .str)) →
      fs.lookup "explanation" = some (.str expl) →
      fs.lookup "total_estimated_time" = some (.str tet) →
      optimize_route_endpoint gwReq2 (.response 200 t) = .ok ⟨route, expl, some tet⟩
      ∧ (RouteResponse.renderFields ⟨route, expl, some tet⟩).map Prod.fst
          = ["optimized_route", "explanation", "total_estimated_time"] := by
  intro t fs route expl tet h0 h1 h2 h3
  have e1 : tryBody gwReq2 (.response 200 t)
      = ((match jsonParse t with
          | none => .error (.pyError "JSONDecodeError")
          | some body => buildRouteResponse body) : Except PyExc RouteResponse) := rfl
  have e3 : buildRouteResponse (.obj fs)
      = (match getStrList ((fs.lookup "optimized_route").getD (.arr [])),
               (match (fs.lookup "explanation").getD (.str "") with
                | Json.str s => some s
                | _ => none),
               (match fs.lookup "total_estimated_time" with
                | none => some none
                | some Json.null => some none
                | some (Json.str s) => some (some s)
                | some _ => none) with
         | some r, some e, some tt => Except.ok ⟨r, e, tt⟩
         | _, _, _ => Except.error (.pyError "ValidationError")) := rfl
  have htry : tryBody gwReq2 (.response 200 t) = .ok ⟨route, expl, some tet⟩ := by
    rw [e1, h0]
    show buildRouteResponse (.obj fs) = .ok ⟨route, expl, some tet⟩
    rw [e3, h1, h2, h3]
    show ((match getStrList (.arr (route.map .str)), some expl, some (some tet) with
           | some r, some e, some tt => Except.ok ⟨r, e, tt⟩
           | _, _, _ => Except.error (PyExc.pyError "ValidationError"))
            : Except PyExc RouteResponse)
        = .ok ⟨route, expl, some tet⟩
    show ((match strsOf (route.map .str), some expl, some (some tet) with
           | some r, some e, some tt => Except.ok ⟨r, e, tt⟩
           | _, _, _ => Except.error (PyExc.pyError "ValidationError"))
            : Except PyExc RouteResponse)
        = .ok ⟨route, expl, some tet⟩
    rw [strsOf_map_str]
  have e0 : optimize_route_endpoint gwReq2 (.response 200 t)
      = (match tryBody gwReq2 (.response 200 t) with
         | .ok r => .ok r
         | .error .timeout => .err 504 "Таймаут запроса к агенту"
         | .error .connect => .err 503 "Агент недоступен"
         | .error e => .err 500 ("Внутренняя ошибка сервера: " ++ excText e)) := rfl
  refine ⟨?_, rfl⟩
  rw [e0, htry]

/-- C8 witness: the pass-through statement evaluated on the concrete
five-field agent reply. -/
theorem C8_passthrough_three_fields_witness :
    optimize_route_endpoint gwReq2 (.response 200 c8text)
        = .ok ⟨["Адрес Б", "Адрес А"], "Б приоритетнее", some "1 час"⟩
      ∧ (RouteResponse.renderFields
          ⟨["Адрес Б", "Адрес А"], "Б приоритетнее", some "1 час"⟩).map Prod.fst
          = ["optimized_route", "explanation", "total_estimated_time"] :=
  C8_passthrough_three_fields c8text
    [("optimized_route", .arr [.str "Адрес Б", .str "Адрес А"]),
     ("explanation", .str "Б приоритетнее"),
     ("total_estimated_time", .str "1 час"),
     ("risk_assessment", .str "стандартные риски"),
     ("success_probability", .num 9)]
    ["Адрес Б", "Адрес А"] "Б приоритетнее" "1 час"
    rfl rfl rfl rfl

/-- The character data of an append is the append of the data. -/
theorem strData_append (a b : String) : (a ++ b).data = a.data ++ b.data := rfl

/-- A list is a contiguous factor of itself. -/
theorem locc_self (p : List Char) : p <:+: p :=
  ⟨[], [], by simp⟩

/-- Prepending keeps a contiguous factor a factor. -/
theorem locc_right (a : List Char) {p b : List Char} (h : p <:+: b) : p <:+: a ++ b := by
  obtain ⟨u, v, rfl⟩ := h
  exact ⟨a ++ u, v, by simp⟩

/-- Appending keeps a contiguous factor a factor. -/
theorem locc_left (b : List Char) {p a : List Char} (h : p <:+: a) : p <:+: a ++ b := by
  obtain ⟨u, v, rfl⟩ := h
  exact ⟨u, v ++ b, by simp⟩

/-- Every listed address's rendered fragment occurs in the numbered
address lines, whatever the starting index. -/
theorem addrFrag_in_lines (a : AAddr) :
    ∀ (i : Nat) (addrs : List AAddr), a ∈ addrs →
      strOccurs (addrFrag a) (RouteOptimizerAgent.addressLines i addrs) := by
  intro i addrs
  induction addrs generalizing i with
  | nil => intro h; exact absurd h (List.not_mem_nil a)
  | cons hd tl ih =>
    intro hmem
    rcases List.mem_cons.mp hmem with rfl | htl
    · show (addrFrag a).data <:+: (RouteOptimizerAgent.addressLines i (a :: tl)).data
      have hsplit : (RouteOptimizerAgent.addressLines i (a :: tl)).data
          = (toString i ++ ". ").data
            ++ ((addrFrag a).data ++ (RouteOptimizerAgent.addressLines (i + 1) tl).data) := by
        simp [RouteOptimizerAgent.addressLines, addrFrag, strData_append, List.append_assoc]
      rw [hsplit]
      exact locc_right _ (locc_left _ (locc_self _))
    · show (addrFrag a).data <:+: (RouteOptimizerAgent.addressLines i (hd :: tl)).data
      have hsplit : (RouteOptimizerAgent.addressLines i (hd :: tl)).data
          = (toString i ++ ". " ++ hd.address ++ " (приоритет: "
              ++ toString hd.priority ++ "/5)\n").data
            ++ (RouteOptimizerAgent.addressLines (i + 1) tl).data := by
        simp [RouteOptimizerAgent.addressLines, strData_append, List.append_assoc]
      rw [hsplit]
      exact locc_right _ (ih (i + 1) htl)

/-- Every listed warehouse delay's rendered line occurs in the delay
lines. -/
theorem delayFrag_in_lines (w : String) (m : Int) :
    ∀ (ds : List (String × Int)), (w, m) ∈ ds →
      strOccurs (w ++ ": +" ++ toString m ++ " минут\n")
        (RouteOptimizerAgent.delayLines ds) := by
  intro ds
  induction ds with
  | nil => intro h; exact absurd h (List.not_mem_nil _)
  | cons hd tl ih =>
    intro hmem
    rcases List.mem_cons.mp hmem with heq | htl
    · obtain rfl := heq.symm
      show (w ++ ": +" ++ toString m ++ " минут\n").data
          <:+: (RouteOptimizerAgent.delayLines ((w, m) :: tl)).data
      have hsplit : (RouteOptimizerAgent.delayLines ((w, m) :: tl)).data
          = ("  * ").data
            ++ ((w ++ ": +" ++ toString m ++ " минут\n").data
              ++ (RouteOptimizerAgent.delayLines tl).data) := by
        simp [RouteOptimizerAgent.delayLines, strData_append, List.append_assoc]
      rw [hsplit]
      exact locc_right _ (locc_left _ (locc_self _))
    · obtain ⟨hw, hm⟩ := hd
      show (w ++ ": +" ++ toString m ++ " минут\n").data
          <:+: (RouteOptimizerAgent.delayLines ((hw, hm) :: tl)).data
      have hsplit : (RouteOptimizerAgent.delayLines ((hw, hm) :: tl)).data
          = ("  * " ++ hw ++ ": +" ++ toString hm ++ " минут\n").data
            ++ (RouteOptimizerAgent.delayLines tl).data := by
        simp [RouteOptimizerAgent.delayLines, strData_append, List.append_assoc]
      rw [hsplit]
      exact locc_right _ (ih htl)

/-- Decomposition of the built prompt into its eight sections. -/
theorem create_prompt_split (d : AgentData) :
    (RouteOptimizerAgent.create_prompt d).data
      = ("\nЗадача оптимизации маршрута доставки:\n\nАДРЕСА ДОСТАВКИ:\n").data
        ++ ((RouteOptimizerAgent.addressLines 1 d.addresses).data
        ++ (("\nУСЛОВИЯ:\n").data
        ++ ((RouteOptimizerAgent.weatherBlock d).data
        ++ ((RouteOptimizerAgent.trafficBlock d).data
        ++ ((RouteOptimizerAgent.delaysBlock d).data
        ++ ((RouteOptimizerAgent.reqsBlock d).data
        ++ ("\nОпредели оптимальный порядок доставки, учитывая:\n1. Приоритеты клиентов\n2. Погодные условия\n3. Пробки\n4. Задержки на складах\n5. Особые требования\n\nОтветь в формате JSON с полями: optimized_route, explanation, total_estimated_time\n").data)))))) := by
  simp [RouteOptimizerAgent.create_prompt, strData_append, List.append_assoc]

/-- C9 counterexample: with an empty special-requirements list the
direct-mode prompt builder emits no requirements line and no "нет"
marker at all — the claimed explicit none-marker exists only in the
pipeline-mode task template, not in `create_prompt`. -/
theorem C9_counterexample_no_none_marker :
    ¬ strOccurs "- Особые требования: " (RouteOptimizerAgent.create_prompt c9empty)
      ∧ ¬ strOccurs "нет" (RouteOptimizerAgent.create_prompt c9empty) := by
  decide

/-- C9 amended: `create_prompt` is a total function that renders each
address with its priority, translates the known weather and traffic
enum values (unknown values pass through verbatim), renders each
warehouse delay as a "+N минут" line and, only when the requirements
list is non-empty, appends them comma-joined; the explicit "нет" marker
for an empty list exists only in the pipeline-mode preparation. -/
theorem C9_prompt_builder_rendering :
    (∀ (d : AgentData) (a : AAddr), a ∈ d.addresses →
        strOccurs (addrFrag a) (RouteOptimizerAgent.create_prompt d))
      ∧ RouteOptimizerAgent.weatherPhrase "rain" = "дождь"
      ∧ RouteOptimizerAgent.trafficPhrase "heavy" = "сильные пробки"
      ∧ (∀ w, w ∉ (["sunny", "rain", "snow", "fog"] : List String) →
          RouteOptimizerAgent.weatherPhrase w = w)
      ∧ (∀ t, t ∉ (["light", "moderate", "heavy"] : List String) →
          RouteOptimizerAgent.trafficPhrase t = t)
      ∧ (∀ (d : AgentData) (w : String), d.weather_condition = some w → w ≠ "" →
          strOccurs ("- Погода: " ++ RouteOptimizerAgent.weatherPhrase w ++ "\n")
            (RouteOptimizerAgent.create_prompt d))
      ∧ (∀ (d : AgentData) (wh : String) (m : Int), (wh, m) ∈ d.warehouse_delays →
          strOccurs (wh ++ ": +" ++ toString m ++ " минут\n")
            (RouteOptimizerAgent.create_prompt d))
      ∧ (∀ (d : AgentData), d.special_requirements ≠ [] →
          strOccurs ("- Особые требования: "
              ++ String.intercalate ", " d.special_requirements ++ "\n")
            (RouteOptimizerAgent.create_prompt d))
      ∧ RouteOptimizationCrew.crewReqStr [] = "нет" := by
  refine ⟨?_, rfl, rfl, ?_, ?_, ?_, ?_, ?_, rfl⟩
  · intro d a hmem
    show (addrFrag a).data <:+: (RouteOptimizerAgent.create_prompt d).data
    rw [create_prompt_split]
    exact locc_right _ (locc_left _ (addrFrag_in_lines a 1 d.addresses hmem))
  · intro w hw
    simp only [List.mem_cons, List.not_mem_nil, or_false, not_or] at hw
    obtain ⟨h1, h2, h3, h4⟩ := hw
    unfold RouteOptimizerAgent.weatherPhrase
    rw [if_neg h1, if_neg h2, if_neg h3, if_neg h4]
  · intro t ht
    simp only [List.mem_cons, List.not_mem_nil, or_false, not_or] at ht
    obtain ⟨h1, h2, h3⟩ := ht
    unfold RouteOptimizerAgent.trafficPhrase
    rw [if_neg h1, if_neg h2, if_neg h3]
  · intro d w hw hne
    have hblock : RouteOptimizerAgent.weatherBlock d
        = "- Погода: " ++ RouteOptimizerAgent.weatherPhrase w ++ "\n" := by
      unfold RouteOptimizerAgent.weatherBlock
      rw [hw]
      exact if_neg hne
    show ("- Погода: " ++ RouteOptimizerAgent.weatherPhrase w ++ "\n").data
        <:+: (RouteOptimizerAgent.create_prompt d).data
    rw [create_prompt_split, hblock]
    exact locc_right _ (locc_right _ (locc_right _ (locc_left _ (locc_self _))))
  · intro d wh m hmem
    have hblock : RouteOptimizerAgent.delaysBlock d
        = "- Задержки на складах:\n"
          ++ RouteOptimizerAgent.delayLines d.warehouse_delays := by
      unfold RouteOptimizerAgent.delaysBlock
      exact if_neg (List.ne_nil_of_mem hmem)
    show (wh ++ ": +" ++ toString m ++ " минут\n").data
        <:+: (RouteOptimizerAgent.create_prompt d).data
    rw [create_prompt_split, hblock, strData_append]
    refine locc_right _ (locc_right _ (locc_right _ (locc_right _ (locc_right _
      (locc_left _ (locc_right _ ?_))))))
    exact delayFrag_in_lines wh m d.warehouse_delays hmem
  · intro d hne
    have hblock : RouteOptimizerAgent.reqsBlock d
        = "- Особые требования: "
          ++ String.intercalate ", " d.special_requirements ++ "\n" := by
      unfold RouteOptimizerAgent.reqsBlock
      exact if_neg hne
    show ("- Особые требования: "
        ++ String.intercalate ", " d.special_requirements ++ "\n").data
        <:+: (RouteOptimizerAgent.create_prompt d).data
    rw [create_prompt_split, hblock]
    exact locc_right _ (locc_right _ (locc_right _ (locc_right _ (locc_right _
      (locc_right _ (locc_left _ (locc_self _)))))))

/-- C9 witness: the rendering statements evaluated on the concrete
fully-populated request. -/
theorem C9_prompt_builder_rendering_witness :
    strOccurs (addrFrag ⟨"ул. Ленина, 10", 3⟩) (RouteOptimizerAgent.create_prompt c9full)
      ∧ RouteOptimizerAgent.weatherPhrase "метель" = "метель"
      ∧ RouteOptimizerAgent.trafficPhrase "хаос" = "хаос"
      ∧ strOccurs ("- Погода: " ++ RouteOptimizerAgent.weatherPhrase "rain" ++ "\n")
          (RouteOptimizerAgent.create_prompt c9full)
      ∧ strOccurs ("warehouse_1" ++ ": +" ++ toString (15 : Int) ++ " минут\n")
          (RouteOptimizerAgent.create_prompt c9full)
      ∧ strOccurs ("- Особые требования: "
          ++ String.intercalate ", " c9full.special_requirements ++ "\n")
          (RouteOptimizerAgent.create_prompt c9full) :=
  ⟨C9_prompt_builder_rendering.1 c9full ⟨"ул. Ленина, 10", 3⟩ (by decide),
   C9_prompt_builder_rendering.2.2.2.1 "метель" (by decide),
   C9_prompt_builder_rendering.2.2.2.2.1 "хаос" (by decide),
   C9_prompt_builder_rendering.2.2.2.2.2.1 c9full "rain" rfl (by decide),
   C9_prompt_builder_rendering.2.2.2.2.2.2.1 c9full "warehouse_1" 15 (by decide),
   C9_prompt_builder_rendering.2.2.2.2.2.2.2.1 c9full (by decide)⟩
